import Mathlib

/-!
Verification of the cognee integration adapters (gemini-cognee MCP server and
opencode-cognee plugin) against their natural-language specification.

The JavaScript/TypeScript sources are shallowly embedded: JSON values become an
inductive `Json`, HTTP traffic becomes explicit request records plus oracle
parameters supplying the server's responses, and thrown exceptions become
`Except` values.  Every definition mirrors a concrete function of the sources
(file and line references are given in the doc comments).
-/

namespace Cognee

/-- The backtick character (U+0060), used by the code-span regexes. -/
def btChar : Char := Char.ofNat 96

/-- The apostrophe character (U+0027), appearing in one keyword pattern. -/
def aposChar : Char := Char.ofNat 39

/-- JSON values, as produced by `response.json()` / `JSON.parse`.
Numbers are modelled as rationals (JS numbers are not needed at float
precision by any claim; the configs use 0.7 and small integers). -/
inductive Json where
  | null
  | bool (b : Bool)
  | num (n : ℚ)
  | str (s : String)
  | arr (items : List Json)
  | obj (fields : List (String × Json))
deriving Repr

/-- First binding of a key in an object's field list (JS property lookup;
objects built by this code and by `JSON.parse` carry no duplicate keys). -/
def lookupField : List (String × Json) → String → Option Json
  | [], _ => none
  | (k, v) :: rest, key => if k = key then some v else lookupField rest key

/-- JS truthiness of a defined value: `null`, `false`, `0` and `""` are falsy;
every object and array is truthy. -/
def jsTruthy : Json → Bool
  | Json.null => false
  | Json.bool b => b
  | Json.num n => decide (n ≠ 0)
  | Json.str s => decide (s ≠ "")
  | Json.arr _ => true
  | Json.obj _ => true

/-- JS truthiness of a possibly-undefined value (`none` = `undefined`). -/
def jsTruthyOpt : Option Json → Bool
  | none => false
  | some v => jsTruthy v

/-- JS property access `v.key`: throws a `TypeError` on `null`, yields
`undefined` (`none`) on primitives and on objects lacking the key. -/
def jsGet : Json → String → Except String (Option Json)
  | Json.null, k => Except.error ("TypeError: cannot read properties of null (reading " ++ k ++ ")")
  | Json.obj fields, k => Except.ok (lookupField fields k)
  | _, _ => Except.ok none

/-- JS `a || b` over possibly-undefined values. -/
def jsOrOpt (a : Option Json) (b : Json) : Json :=
  if jsTruthyOpt a then a.getD Json.null else b

/-- JS `opt || dflt` for an optional string argument. -/
def jsOrStr (a : Option String) (dflt : String) : String :=
  match a with
  | none => dflt
  | some s => if s = "" then dflt else s

/-- JS `opt || dflt` for an optional numeric argument (`0` is falsy). -/
def jsOrInt (a : Option Int) (dflt : Int) : Int :=
  match a with
  | none => dflt
  | some n => if n = 0 then dflt else n

/-- JS `!v` on an optional string (`undefined` and `""` are falsy). -/
def jsFalsyStrOpt : Option String → Bool
  | none => true
  | some s => decide (s = "")

/-- Decimal rendering of a rational that is an integer, else `num/den`
(only integer-valued numbers reach `String(...)` in the claims). -/
def numToString (n : ℚ) : String :=
  if n.den = 1 then toString n.num else toString n.num ++ "/" ++ toString n.den

/-- JS `String(v)`, fuel-bounded on JSON depth (JS engines are likewise
stack-bounded).  `String(obj)` is `"[object Object]"`; arrays join their
elements with `","`, `null`/`undefined` elements rendering as `""`. -/
def jsToStringFuel : Nat → Json → String
  | _, Json.null => "null"
  | _, Json.bool b => if b then "true" else "false"
  | _, Json.num n => numToString n
  | _, Json.str s => s
  | _, Json.obj _ => "[object Object]"
  | Nat.succ fuel, Json.arr items =>
      String.intercalate "," (items.map (fun v =>
        match v with
        | Json.null => ""
        | w => jsToStringFuel fuel w))
  | 0, Json.arr _ => ""

/-- JS `String(v)` with a generous depth bound. -/
def jsToString (v : Json) : String := jsToStringFuel 1000 v

/-- Minimal string escaping for `JSON.stringify` (quotes and backslashes;
no claim depends on the finer escaping rules). -/
def jsonEscape (s : String) : String :=
  String.mk (s.data.flatMap (fun c =>
    if c = Char.ofNat 34 ∨ c = Char.ofNat 92 then [Char.ofNat 92, c] else [c]))

/-- `JSON.stringify`, fuel-bounded on JSON depth. -/
def jsonStringifyFuel : Nat → Json → String
  | _, Json.null => "null"
  | _, Json.bool b => if b then "true" else "false"
  | _, Json.num n => numToString n
  | _, Json.str s => String.singleton (Char.ofNat 34) ++ jsonEscape s ++ String.singleton (Char.ofNat 34)
  | Nat.succ fuel, Json.arr items =>
      "[" ++ String.intercalate "," (items.map (jsonStringifyFuel fuel)) ++ "]"
  | Nat.succ fuel, Json.obj fields =>
      "\x7b" ++ String.intercalate "," (fields.map (fun kv =>
        String.singleton (Char.ofNat 34) ++ jsonEscape kv.fst ++ String.singleton (Char.ofNat 34)
          ++ ":" ++ jsonStringifyFuel fuel kv.snd)) ++ "\x7d"
  | 0, Json.arr _ => ""
  | 0, Json.obj _ => ""

/-- `JSON.stringify` with a generous depth bound. -/
def jsonStringify (v : Json) : String := jsonStringifyFuel 1000 v

/-- Accumulating scan behind `jsSplitOnChar`. -/
def splitOnCharAux (sep : Char) : List Char → List Char → List String
  | [], acc => [String.mk acc.reverse]
  | c :: rest, acc =>
      if c = sep then String.mk acc.reverse :: splitOnCharAux sep rest []
      else splitOnCharAux sep rest (c :: acc)

/-- JS `str.split(sep)` for a single-character separator (keeps empty
segments; splitting `""` gives `[""]`, as in JS). -/
def jsSplitOnChar (sep : Char) (s : String) : List String :=
  splitOnCharAux sep s.data []

/-- JS `str.trim()`: whitespace stripped from both ends. -/
def jsTrim (s : String) : String :=
  String.mk (((s.data.dropWhile Char.isWhitespace).reverse.dropWhile Char.isWhitespace).reverse)

/-- JS `str.toUpperCase()` (ASCII contents in all claims). -/
def jsToUpper (s : String) : String :=
  String.mk (s.data.map Char.toUpper)

/-- JS `arr.slice(0, k)`: for `k ≤ 0` relative to the end, clamped at `0`. -/
def jsSlice0 (k : Int) (l : List Json) : List Json :=
  let len : Int := l.length
  let stop : Int := if k < 0 then max 0 (len + k) else min k len
  l.take stop.toNat

/-- JS `str.substring(0, k)` for `k ≥ 0` (ASCII contents in all claims). -/
def jsSubstring0 (k : Nat) (s : String) : String :=
  String.mk (s.data.take k)

/-- JS substring containment test (`msg.includes(sub)`). -/
def jsIncludes (s sub : String) : Bool :=
  decide ((s.splitOn sub).length > 1)

end Cognee

namespace Cognee

/-! ## Transport model

A `fetch` call is represented by the request record it issues (path, method,
and the client-enforced timeout attached via `AbortSignal`/`AbortController`,
`none` when the call carries no signal) together with an oracle outcome:
the server's response, a network failure, or the abort fired by the client
timeout. -/

/-- One HTTP request as issued by `fetch`. -/
structure HttpRequest where
  path : String
  method : String
  timeoutMs : Option Nat
deriving Repr, DecidableEq

/-- Outcome of a single `fetch`: a response with status and JSON body, an
`AbortError` (client timeout fired), or another network-level rejection. -/
inductive FetchOutcome where
  | success (status : Int) (body : Json)
  | aborted
  | netError (name : String)

/-- `response.ok`: status in the 2xx range. -/
def statusOk (status : Int) : Bool := decide (200 ≤ status ∧ status ≤ 299)

/-- Error taxonomy shared by both adapters: `CogneeUnavailableError`
(transport failure or timeout), `CogneeAPIError` (non-2xx status, carrying
the status), and any other thrown `Error` (by its message). -/
inductive CogneeErr where
  | unavailable (msg : String)
  | apiError (msg : String) (status : Int)
  | other (msg : String)
deriving Repr, DecidableEq

/-- `error.message` of a thrown error. -/
def CogneeErr.message : CogneeErr → String
  | CogneeErr.unavailable m => m
  | CogneeErr.apiError m _ => m
  | CogneeErr.other m => m

/-! ## opencode-cognee client (src/opencode-cognee/src/services/client.ts) -/

/-- `SearchResult` of client.ts.  The TS annotation says `content: string`,
but at runtime `extractSearchResults` stores whatever truthy value the item's
`content`/`text`/`result` field held, so the field is modelled as `Json`. -/
structure SearchResult where
  content : Json
  metadata : Option Json
deriving Repr

/-- Body of the per-item loop of `extractSearchResults` (client.ts lines
294-304): strings are wrapped as-is; otherwise the first truthy of
`item.content`, `item.text`, `item.result` is kept with
`metadata: item.metadata || item`, and items without one are dropped.
Property access on a `null` item throws. -/
def clientExtractItem (item : Json) : Except String (Option SearchResult) :=
  match item with
  | Json.str s => Except.ok (some { content := Json.str s, metadata := none })
  | _ => do
    let c ← jsGet item "content"
    let t ← jsGet item "text"
    let r ← jsGet item "result"
    let firstTruthy : Option Json :=
      if jsTruthyOpt c then c else if jsTruthyOpt t then t else r
    if jsTruthyOpt firstTruthy then
      let m ← jsGet item "metadata"
      Except.ok (some { content := firstTruthy.getD Json.null
                        metadata := some (jsOrOpt m item) })
    else
      Except.ok none

/-- The array branch of `extractSearchResults`. -/
def clientExtractItems (items : List Json) : Except String (List SearchResult) := do
  let opts ← items.mapM clientExtractItem
  Except.ok (opts.filterMap id)

/-- `CogneeClient.extractSearchResults` (client.ts lines 290-312).  A bare
array is normalized item-wise; a bare string is wrapped as one result; an
object with an array-valued `results` field recurses into that array (whose
elements then hit the array branch); anything else yields `[]`.  Accessing
`.results` on `null` throws. -/
def extractSearchResults (data : Json) : Except String (List SearchResult) :=
  match data with
  | Json.arr items => clientExtractItems items
  | Json.str s => Except.ok [{ content := Json.str s, metadata := none }]
  | Json.null => Except.error "TypeError: cannot read properties of null (reading results)"
  | Json.obj fields =>
      match lookupField fields "results" with
      | some (Json.arr items) => clientExtractItems items
      | _ => Except.ok []
  | _ => Except.ok []

/-- `CogneeClient.searchMemories` (client.ts lines 169-214): issues one POST
to `/api/v1/search` carrying the `AbortController` timeout; an `AbortError`
becomes `CogneeUnavailableError "Cognee search timed out"`, any other fetch
rejection `CogneeUnavailableError "Cannot connect to Cognee server"`, a
non-2xx response `CogneeAPIError`, and a 2xx body is normalized by
`extractSearchResults` (a `TypeError` there surfaces as `other`). -/
def clientSearchMemories (_query : String) (_searchType : String) (_topK : Int)
    (_sessionId : Option String) (timeoutMs : Nat) (outcome : FetchOutcome) :
    HttpRequest × Except CogneeErr (List SearchResult) :=
  let req : HttpRequest :=
    { path := "/api/v1/search", method := "POST", timeoutMs := some timeoutMs }
  match outcome with
  | FetchOutcome.aborted =>
      (req, Except.error (CogneeErr.unavailable "Cognee search timed out"))
  | FetchOutcome.netError _ =>
      (req, Except.error (CogneeErr.unavailable "Cannot connect to Cognee server"))
  | FetchOutcome.success status body =>
      if statusOk status then
        match extractSearchResults body with
        | Except.ok results => (req, Except.ok results)
        | Except.error e => (req, Except.error (CogneeErr.other e))
      else
        (req, Except.error (CogneeErr.apiError "Cognee search failed" status))

/-- The request issued by `CogneeClient.healthCheck` (client.ts lines
317-326) and by `healthCheck` of the gemini server (server.js lines 58-65):
a plain `fetch(baseUrl + "/health")` with no `AbortSignal`. -/
def healthRequest : HttpRequest :=
  { path := "/health", method := "GET", timeoutMs := none }

/-- `healthCheck` of both adapters: `response.ok` on a response, `false`
on any rejection; the try/catch makes it total. -/
def healthCheck (outcome : FetchOutcome) : Bool :=
  match outcome with
  | FetchOutcome.success status _ => statusOk status
  | FetchOutcome.aborted => false
  | FetchOutcome.netError _ => false

/-! ## gemini-cognee searchMemories (src/gemini-cognee/src/server.js) -/

/-- One POST to `/api/v1/search` as issued by the gemini `searchMemories`
via `cogneeRequest` (server.js lines 114-128).  The `query` field is
whatever JS value was passed (the recursive call passes an array).
`cogneeRequest` attaches no `AbortSignal`, so `timeoutMs` is `none`. -/
structure GSearchRequest where
  query : Json
  search_type : String
  top_k : Int
  timeoutMs : Option Nat
deriving Repr

/-- A result record `{content: ...}` built by the gemini normalizer. -/
structure GSearchResult where
  content : Json
deriving Repr

/-- The per-item mapper of the gemini normalizer (server.js lines 132-135):
strings are wrapped; otherwise `item.content || item.text || item.result ||
JSON.stringify(item)` (throwing on a `null` item). -/
def geminiNormalizeItem (item : Json) : Except String GSearchResult :=
  match item with
  | Json.str s => Except.ok { content := Json.str s }
  | _ => do
    let c ← jsGet item "content"
    let t ← jsGet item "text"
    let r ← jsGet item "result"
    let v : Json :=
      if jsTruthyOpt c then c.getD Json.null
      else if jsTruthyOpt t then t.getD Json.null
      else if jsTruthyOpt r then r.getD Json.null
      else Json.str (jsonStringify item)
    Except.ok { content := v }

/-- `searchMemories` of the gemini server (server.js lines 114-143).
`responses` is the oracle of successive server replies to the POSTs the
function issues (an exhausted oracle models a transport failure inside
`cogneeRequest`).  The first component collects every request issued.

Faithful to the source, the `result.results` branch re-invokes
`searchMemories(result.results)` — issuing a fresh POST whose `query` is the
results array and whose `search_type`/`top_k` are the defaults — instead of
normalizing the array locally. -/
def geminiSearchMemories (query : Json) (searchType : String) (topK : Int) :
    List Json → List GSearchRequest × Except CogneeErr (List GSearchResult)
  | [] =>
      ([{ query := query, search_type := searchType, top_k := topK, timeoutMs := none }],
       Except.error (CogneeErr.unavailable
         "Cognee server unavailable. Start it with: uv run python -m cognee.api.client"))
  | r :: rest =>
      let req : GSearchRequest :=
        { query := query, search_type := searchType, top_k := topK, timeoutMs := none }
      match r with
      | Json.arr items =>
          match items.mapM geminiNormalizeItem with
          | Except.ok results => ([req], Except.ok results)
          | Except.error e => ([req], Except.error (CogneeErr.other e))
      | _ =>
          match jsGet r "results" with
          | Except.error e => ([req], Except.error (CogneeErr.other e))
          | Except.ok v =>
              if jsTruthyOpt v then
                let (reqs, res) :=
                  geminiSearchMemories (v.getD Json.null) "GRAPH_COMPLETION" 10 rest
                (req :: reqs, res)
              else
                ([req], Except.ok [{ content := Json.str (jsToString r) }])

end Cognee

namespace Cognee

/-! ## Memory-trigger keyword detection

Embedded from `removeCodeBlocks` / `detectMemoryKeyword` of the opencode
plugin (opencode-cognee README plugin source, and identically the gemini
before-agent hook, src/unnamed/part_001 lines 34-68):

  CODE_BLOCK_PATTERN  = three backticks, lazily anything, three backticks (global)
  INLINE_CODE_PATTERN = backtick, one-or-more non-backticks, backtick (global)
  MEMORY_KEYWORD_PATTERN = word-bounded alternation of the configured
                           keyword patterns, case-insensitive

with the default `keywordPatterns` of both configs. -/

/-- Length of the earliest run of three consecutive backticks, as an offset. -/
def findTripleBacktick : List Char → Option Nat
  | c1 :: c2 :: c3 :: rest =>
      if c1 = btChar ∧ c2 = btChar ∧ c3 = btChar then some 0
      else (findTripleBacktick (c2 :: c3 :: rest)).map (· + 1)
  | _ => none

/-- Match length of the fenced-code regex at the head of the text: three
backticks, then lazily any characters up to the earliest closing three
backticks.  `none` when the regex cannot match here. -/
def fencedMatchLen (cs : List Char) : Option Nat :=
  match cs with
  | c1 :: c2 :: c3 :: rest =>
      if c1 = btChar ∧ c2 = btChar ∧ c3 = btChar then
        (findTripleBacktick rest).map (fun j => j + 6)
      else none
  | _ => none

/-- Match length of the inline-code regex at the head of the text: a
backtick, a nonempty run of non-backticks, a backtick. -/
def inlineMatchLen (cs : List Char) : Option Nat :=
  match cs with
  | c :: rest =>
      if c = btChar then
        let run := rest.takeWhile (fun d => ¬ d = btChar)
        if run.isEmpty then none
        else
          match rest.drop run.length with
          | d :: _ => if d = btChar then some (run.length + 2) else none
          | [] => none
      else none
  | [] => none

/-- Global regex replacement by the empty string: scan left to right, at
each position take the match if the pattern matches there (resuming after
it), else keep the character.  This is `text.replace(pattern, "")` with the
`g` flag for patterns that cannot match the empty string.  Fuel-recursive
so that concrete evaluations reduce; `fuel = length` always suffices since
every step consumes at least one character. -/
def stripAux (matchLen : List Char → Option Nat) : Nat → List Char → List Char
  | _, [] => []
  | 0, l => l
  | Nat.succ fuel, c :: rest =>
      match matchLen (c :: rest) with
      | some n => stripAux matchLen fuel (rest.drop (n - 1))
      | none => c :: stripAux matchLen fuel rest

/-- `removeCodeBlocks`: strip fenced code spans, then inline code spans. -/
def removeCodeBlocks (text : List Char) : List Char :=
  stripAux inlineMatchLen (stripAux fencedMatchLen text.length text).length
    (stripAux fencedMatchLen text.length text)

/-- JS `\w`: ASCII letters, digits, underscore. -/
def isWordChar (c : Char) : Bool := c.isAlpha ∨ c.isDigit ∨ c = '_'

/-- Character at an index, `none` out of range. -/
def charAt : List Char → Nat → Option Char
  | l, j => (l.drop j).head?

/-- Word-ness of a possibly-absent character (absent counts as non-word). -/
def isWordAt (text : List Char) (j : Nat) : Bool :=
  match charAt text j with
  | some c => isWordChar c
  | none => false

/-- JS `\b` between index `j - 1` and index `j` (ends of string non-word). -/
def wordBoundaryAt (text : List Char) (j : Nat) : Bool :=
  let left := if j = 0 then false else isWordAt text (j - 1)
  ¬ left = isWordAt text j

/-- Case-insensitive character-wise equality of a slice starting at `i`
against a pattern (the `i` regex flag; all patterns are ASCII). -/
def ciMatchAt (text : List Char) (i : Nat) (pat : List Char) : Bool :=
  let seg := (text.drop i).take pat.length
  decide (seg.length = pat.length) ∧
    (seg.zip pat).all (fun p => p.fst.toLower = p.snd.toLower)

/-- A whole-word, case-insensitive match of `pat` at index `i`:
the regex `\b(pat)\b`.  Every configured pattern begins and ends with a
word character, so the boundaries reduce to boundaries at `i` and at
`i + pat.length`. -/
def keywordMatchAt (text : List Char) (i : Nat) (pat : List Char) : Bool :=
  ciMatchAt text i pat ∧ wordBoundaryAt text i ∧ wordBoundaryAt text (i + pat.length)

/-- The default `keywordPatterns` of both adapters' configs. -/
def MEMORY_KEYWORDS : List (List Char) :=
  ["remember".data, "note".data, "save this".data, "important".data,
   ("don" ++ String.singleton aposChar ++ "t forget").data, "keep in mind".data]

/-- `MEMORY_KEYWORD_PATTERN.test(text)`: some keyword matches whole-word,
case-insensitively, at some position. -/
def keywordTest (text : List Char) : Bool :=
  (List.range (text.length + 1)).any (fun i =>
    MEMORY_KEYWORDS.any (fun p => keywordMatchAt text i p))

/-- `detectMemoryKeyword`: strip code spans, then scan for keywords. -/
def detectMemoryKeyword (s : String) : Bool :=
  keywordTest (removeCodeBlocks s.data)

/-- The `(start, length)` intervals a global regex pass removes, under the
same left-to-right scan as `stripAux` — the code spans of the text. -/
def spanIntervalsAux (matchLen : List Char → Option Nat) :
    Nat → Nat → List Char → List (Nat × Nat)
  | _, _, [] => []
  | 0, _, _ => []
  | Nat.succ fuel, pos, c :: rest =>
      match matchLen (c :: rest) with
      | some n => (pos, n) :: spanIntervalsAux matchLen fuel (pos + n) (rest.drop (n - 1))
      | none => spanIntervalsAux matchLen fuel (pos + 1) rest

/-- The fenced code spans of a text, as `(start, length)` intervals. -/
def fencedSpans (s : String) : List (Nat × Nat) :=
  spanIntervalsAux fencedMatchLen s.data.length 0 s.data

/-- The inline code spans of a text, as `(start, length)` intervals
(computed on the original text; meaningful when there are no fenced spans). -/
def inlineSpans (s : String) : List (Nat × Nat) :=
  spanIntervalsAux inlineMatchLen s.data.length 0 s.data

/-- All whole-word case-insensitive keyword occurrences in the raw text, as
`(start, stop)` index pairs. -/
def keywordOccurrences (s : String) : List (Nat × Nat) :=
  (List.range (s.data.length + 1)).flatMap (fun i =>
    MEMORY_KEYWORDS.filterMap (fun p =>
      if keywordMatchAt s.data i p then some (i, i + p.length) else none))

/-- The text `re`remember`member` (backticks around the middle word):
its sole keyword occurrence lies inside its sole inline code span. -/
def spanGlueText : String :=
  "re" ++ String.singleton btChar ++ "remember" ++ String.singleton btChar ++ "member"

end Cognee

namespace Cognee

/-! ## Dates (`Date.prototype.toISOString`, UTC)

The session-save path renders `new Date(ms).toISOString()` and its date
part.  Standard civil-calendar conversion from days since 1970-01-01. -/

/-- JS `array.join(sep)` (for string arrays without holes). -/
def joinSep (sep : String) : List String → String
  | [] => ""
  | [x] => x
  | x :: rest => x ++ sep ++ joinSep sep rest

/-- Gregorian `(year, month, day)` from days since 1970-01-01 (UTC). -/
def civilFromDays (days : Nat) : Nat × Nat × Nat :=
  let z := days + 719468
  let era := z / 146097
  let doe := z % 146097
  let yoe := (doe - doe / 1460 + doe / 36524 - doe / 146096) / 365
  let y := yoe + era * 400
  let doy := doe - (365 * yoe + yoe / 4 - yoe / 100)
  let mp := (5 * doy + 2) / 153
  let d := doy - (153 * mp + 2) / 5 + 1
  let m := if mp < 10 then mp + 3 else mp - 9
  (if m ≤ 2 then y + 1 else y, m, d)

/-- Two-digit zero padding. -/
def pad2 (n : Nat) : String := if n < 10 then "0" ++ toString n else toString n

/-- Three-digit zero padding. -/
def pad3 (n : Nat) : String :=
  if n < 10 then "00" ++ toString n
  else if n < 100 then "0" ++ toString n else toString n

/-- `new Date(ms).toISOString().split('T')[0]`: the UTC date `YYYY-MM-DD`. -/
def isoDate (ms : Nat) : String :=
  let ymd := civilFromDays (ms / 86400000)
  toString ymd.1 ++ "-" ++ pad2 ymd.2.1 ++ "-" ++ pad2 ymd.2.2

/-- `new Date(ms).toISOString()`: `YYYY-MM-DDTHH:MM:SS.mmmZ` (UTC). -/
def isoDateTime (ms : Nat) : String :=
  let rem := ms % 86400000
  isoDate ms ++ "T" ++ pad2 (rem / 3600000) ++ ":" ++ pad2 (rem % 3600000 / 60000)
    ++ ":" ++ pad2 (rem % 60000 / 1000) ++ "." ++ pad3 (rem % 1000) ++ "Z"

/-- `sessionDate.replace(hyphen-regex-global, underscore)`. -/
def underscoreDate (s : String) : String :=
  String.mk (s.data.map (fun c => if c = '-' then '_' else c))

/-! ## opencode-cognee plugin state and session lifecycle
(opencode-cognee README plugin source: `conversations`, `injectedSessions`,
the `chat.message` handler and the `event` handler). -/

/-- One tracked message `{role, content, timestamp}`. -/
structure Msg where
  role : String
  content : String
  timestamp : Nat
deriving Repr, DecidableEq

/-- `SessionState`: `{messages, startTime}`. -/
structure SessionState where
  messages : List Msg
  startTime : Nat
deriving Repr, DecidableEq

/-- The plugin's process-wide mutable state: the `conversations` map
(modelled as an association list with JS `Map` insertion order) and the
`injectedSessions` set. -/
structure PluginState where
  conversations : List (String × SessionState)
  injectedSessions : List String
deriving Repr, DecidableEq

/-- `conversations.get(id)`. -/
def getSession : List (String × SessionState) → String → Option SessionState
  | [], _ => none
  | (k, v) :: rest, sid => if k = sid then some v else getSession rest sid

/-- `conversations.set(id, s)`: update in place, else append. -/
def setSession : List (String × SessionState) → String → SessionState →
    List (String × SessionState)
  | [], sid, s => [(sid, s)]
  | (k, v) :: rest, sid, s =>
      if k = sid then (k, s) :: rest else (k, v) :: setSession rest sid s

/-- The `"chat.message"` handler's effect on the plugin state (README plugin
source lines 316-407): an empty/whitespace-only message is ignored; otherwise
the session's state is created on first sight (`startTime = now`) and the
message appended; the session id is added to `injectedSessions` on its first
message.  The memory search and the nudge do not touch this state. -/
def stepChatMessage (st : PluginState) (sid text : String) (now : Nat) : PluginState :=
  if jsTrim text = "" then st
  else
    let base := (getSession st.conversations sid).getD { messages := [], startTime := now }
    let updated : SessionState :=
      { base with messages := base.messages ++ [{ role := "user", content := text, timestamp := now }] }
    { conversations := setSession st.conversations sid updated
      injectedSessions :=
        if st.injectedSessions.contains sid then st.injectedSessions
        else st.injectedSessions ++ [sid] }

/-- `AddResponse` of the client: `{success, message?}`. -/
structure AddResponse where
  success : Bool
  message : Option String
deriving Repr, DecidableEq

/-- A remote operation issued by the tool handler or the session flusher. -/
inductive NetOp where
  | searchOp (query : String) (searchType : String) (topK : Int)
  | addOp (content : String) (datasetName : String) (nodeSets : List String)
  | cognifyOp (datasetName : String) (temporalCognify : Bool)
  | listOp
deriving Repr, DecidableEq

/-- The dated "Session Record" document the event handler uploads for one
session (README plugin source lines 636-650); `sessionDate`/`sessionTime`
derive from `state.startTime`, the duration from `now - startTime`
(`Math.round(elapsed / 1000 / 60)`). -/
def sessionDocument (sid : String) (s : SessionState) (now : Nat) : String :=
  let sessionDate := isoDate s.startTime
  "Session Record (" ++ sessionDate ++ "):\n"
    ++ "Date: " ++ sessionDate ++ "\n"
    ++ "Time: " ++ isoDateTime s.startTime ++ "\n"
    ++ "Session ID: " ++ sid ++ "\n"
    ++ "Duration: " ++ toString ((now - s.startTime + 30000) / 60000) ++ " minutes\n"
    ++ "Message Count: " ++ toString s.messages.length ++ "\n\n"
    ++ "Events and Conversation:\n"
    ++ joinSep "\n\n" (s.messages.map (fun m =>
         "[" ++ isoDateTime m.timestamp ++ "] " ++ jsToUpper m.role ++ ": " ++ m.content))

/-- The NodeSet tags of the uploaded session document (README plugin source
line 653): `['sessions', 'conversations', 'session_<date of startTime>']`. -/
def sessionNodeSets (s : SessionState) : List String :=
  ["sessions", "conversations", "session_" ++ underscoreDate (isoDate s.startTime)]

/-- The remote calls the event handler issues for one flushed session:
one `addMemory(document, 'default_user', nodeSets)`; when it returns
`{success: true}`, one `cognify('default_user', {temporalCognify: true})`
(which sends `temporal_cognify: true`).  On an add failure or exception the
cognify is skipped; the catch keeps the handler total either way. -/
def flushSessionCalls (sid : String) (s : SessionState) (now : Nat)
    (addRes : Except CogneeErr AddResponse) : List NetOp :=
  let addCall := NetOp.addOp (sessionDocument sid s now) "default_user" (sessionNodeSets s)
  match addRes with
  | Except.ok r =>
      if r.success then [addCall, NetOp.cognifyOp "default_user" true] else [addCall]
  | Except.error _ => [addCall]

/-- The `event` handler (README plugin source lines 628-674): on
`session.idle` or `session.end`, every tracked session with a nonempty
transcript is flushed (upload, then cognify on success) and — in the
`finally` block, regardless of outcome — removed from `conversations` and
`injectedSessions`.  `addO` is the oracle giving each session's upload
outcome.  Other events do nothing. -/
def handleEventOC (st : PluginState) (eventType : String) (now : Nat)
    (addO : String → Except CogneeErr AddResponse) : PluginState × List NetOp :=
  if eventType = "session.idle" ∨ eventType = "session.end" then
    let toFlush := st.conversations.filter (fun p => p.snd.messages.length > 0)
    let ops := toFlush.flatMap (fun p => flushSessionCalls p.fst p.snd now (addO p.fst))
    let flushedIds := toFlush.map Prod.fst
    ({ conversations := st.conversations.filter (fun p => ¬ p.snd.messages.length > 0)
       injectedSessions := st.injectedSessions.filter (fun sid => ¬ flushedIds.contains sid) },
     ops)
  else (st, [])

/-- An event delivered to the plugin, as far as the session map is
concerned: a user chat message, or a lifecycle event. -/
inductive PEvent where
  | chatMsg (sid : String) (text : String) (now : Nat)
  | lifecycle (eventType : String) (now : Nat)
deriving Repr

/-- One plugin step's effect on the state.  The remote-call outcomes never
influence the state (the flush deletes in a `finally`; the chat handler's
search failure is swallowed), so the state transition is oracle-free. -/
def stepState (st : PluginState) (e : PEvent) : PluginState :=
  match e with
  | PEvent.chatMsg sid text now => stepChatMessage st sid text now
  | PEvent.lifecycle eventType now =>
      (handleEventOC st eventType now (fun _ => Except.ok { success := true, message := none })).fst

/-- Run a sequence of events from a state. -/
def runEvents (st : PluginState) : List PEvent → PluginState
  | [] => st
  | e :: rest => runEvents (stepState st e) rest

/-- The empty initial plugin state. -/
def initialPluginState : PluginState :=
  { conversations := [], injectedSessions := [] }

end Cognee

namespace Cognee

/-! ## Tool handlers

The `cognee` tool of the gemini MCP server (server.js lines 153-370) and of
the opencode plugin (README plugin source lines 409-626).  The four remote
operations are abstracted as oracle functions returning `Except` (they sit
behind `await`, and a rejection surfaces as a thrown error at the handler);
the handler records each operation it invokes as a `NetOp`.  The structured
payload each branch passes to `JSON.stringify` is modelled as the `Json`
value itself. -/

/-- The tool's argument object (all fields optional in the schema). -/
structure ToolArgs where
  action : Option String
  query : Option String
  content : Option String
  tags : Option String
  searchType : Option String
  topK : Option Int
deriving Repr, DecidableEq

/-- A string in single quotes (for messages the source writes with them). -/
def sq (s : String) : String :=
  String.singleton aposChar ++ s ++ String.singleton aposChar

/-- `args.tags ? args.tags.split(',').map(trim).filter(nonempty) :
['user_memories']` — shared verbatim by both handlers (server.js lines
313-315, README plugin source lines 560-562). -/
def parseTags (tags : Option String) : List String :=
  if jsFalsyStrOpt tags then ["user_memories"]
  else ((jsSplitOnChar ',' (tags.getD "")).map jsTrim).filter (fun t => t.length > 0)

/-- An object field that is dropped when the value is `undefined`
(`JSON.stringify` omits `undefined`-valued keys). -/
def optField (k : String) : Option Json → List (String × Json)
  | some v => [(k, v)]
  | none => []

/-- Oracles for the remote operations the gemini tool invokes. -/
structure GeminiEnv where
  runSearch : String → String → Int → Except CogneeErr (List GSearchResult)
  runAdd : String → String → List String → Except CogneeErr AddResponse
  runCognify : String → Bool → Except CogneeErr Json
  runList : Except CogneeErr (List Json)

/-- The static usage guide of the gemini `help` action (server.js lines
197-243). -/
def geminiHelpPayload : Json :=
  Json.obj [
    ("success", Json.bool true),
    ("message", Json.str "Cognee Memory Usage Guide"),
    ("commands", Json.arr [
      Json.obj [
        ("command", Json.str "search"),
        ("description", Json.str "Search memories with configurable search type"),
        ("args", Json.arr [Json.str "query", Json.str "searchType (optional)", Json.str "topK (optional)"]),
        ("searchTypes", Json.obj [
          ("GRAPH_COMPLETION", Json.str "Default - Complex reasoning with graph context (slower, most intelligent)"),
          ("RAG_COMPLETION", Json.str "Fast fact retrieval without graph structure"),
          ("CHUNKS", Json.str "Raw text passages - fastest option"),
          ("SUMMARIES", Json.str "Pre-generated hierarchical summaries"),
          ("GRAPH_COMPLETION_COT", Json.str "Chain-of-thought for complex multi-step reasoning"),
          ("FEELING_LUCKY", Json.str "Auto-select best search type")])],
      Json.obj [
        ("command", Json.str "timeline"),
        ("description", Json.str "Time-aware search (e.g., \"what happened last week\")"),
        ("args", Json.arr [Json.str "query"])],
      Json.obj [
        ("command", Json.str "add"),
        ("description", Json.str "Add memory with optional NodeSet tags for organization"),
        ("args", Json.arr [Json.str "content", Json.str "tags (optional, comma-separated)"]),
        ("example", Json.str "add content=\"default_user prefers dark mode\" tags=\"preferences,ui\"")],
      Json.obj [
        ("command", Json.str "list"),
        ("description", Json.str "List all datasets"),
        ("args", Json.arr [])]]),
    ("nodeSets", Json.obj [
      ("description", Json.str "NodeSets are tags that organize memories into searchable groups"),
      ("examples", Json.arr [Json.str "preferences", Json.str "tools", Json.str "decisions", Json.str "projects", Json.str "sessions"]),
      ("automatic", Json.arr [Json.str "sessions", Json.str "conversations", Json.str "user_memories"])]),
    ("searchTypeGuide", Json.obj [
      ("simpleFacts", Json.str "Use RAG_COMPLETION for quick fact lookups"),
      ("complexReasoning", Json.str "Use GRAPH_COMPLETION for questions requiring relationship understanding"),
      ("rawContent", Json.str "Use CHUNKS to verify content exists or get exact passages"),
      ("overviews", Json.str "Use SUMMARIES for quick document overviews"),
      ("multiStep", Json.str "Use GRAPH_COMPLETION_COT for differential diagnosis or complex analysis")])]

/-- A `{success: false, error: msg}` validation payload. -/
def failPayload (msg : String) : Json :=
  Json.obj [("success", Json.bool false), ("error", Json.str msg)]

/-- The gemini catch block (server.js lines 355-368): `{success: false,
error: message, hint?}`, the hint present exactly when the message contains
"unavailable" (an `undefined` hint is dropped by `JSON.stringify`). -/
def geminiErrorEnvelope (e : CogneeErr) : Json :=
  Json.obj ([("success", Json.bool false), ("error", Json.str e.message)] ++
    (if jsIncludes e.message "unavailable" then
      [("hint", Json.str "Start Cognee with: uv run python -m cognee.api.client")]
     else []))

/-- The `switch (action)` body of the gemini tool (server.js lines 192-354),
returning the operations invoked and either the branch's payload or the
error that escapes to the catch. -/
def geminiToolBody (env : GeminiEnv) (args : ToolArgs) (action : String) :
    List NetOp × Except CogneeErr Json :=
  match action with
  | "help" => ([], Except.ok geminiHelpPayload)
  | "search" =>
      if jsFalsyStrOpt args.query then
        ([], Except.ok (failPayload "query parameter required for search"))
      else
        let q := args.query.getD ""
        let searchType := jsOrStr args.searchType "GRAPH_COMPLETION"
        let topK := jsOrInt args.topK 10
        match env.runSearch q searchType topK with
        | Except.error e => ([NetOp.searchOp q searchType topK], Except.error e)
        | Except.ok results =>
            ([NetOp.searchOp q searchType topK],
             Except.ok (Json.obj [
               ("success", Json.bool true),
               ("query", Json.str q),
               ("searchType", Json.str searchType),
               ("count", Json.num results.length),
               ("results", Json.arr (jsSlice0 topK (results.map (fun r =>
                  Json.obj [("content", r.content)]))))]))
  | "timeline" =>
      if jsFalsyStrOpt args.query then
        ([], Except.ok (failPayload "query parameter required for timeline"))
      else
        let q := args.query.getD ""
        match env.runSearch q "TEMPORAL" 15 with
        | Except.error e => ([NetOp.searchOp q "TEMPORAL" 15], Except.error e)
        | Except.ok results =>
            ([NetOp.searchOp q "TEMPORAL" 15],
             Except.ok (Json.obj [
               ("success", Json.bool true),
               ("query", Json.str q),
               ("searchType", Json.str "TEMPORAL"),
               ("count", Json.num results.length),
               ("results", Json.arr (jsSlice0 15 (results.map (fun r =>
                  Json.obj [("content", r.content)]))))]))
  | "add" =>
      if jsFalsyStrOpt args.content then
        ([], Except.ok (failPayload "content parameter required for add"))
      else
        let c := args.content.getD ""
        let nodeSets := parseTags args.tags
        match env.runAdd c "gemini_memories" nodeSets with
        | Except.error e => ([NetOp.addOp c "gemini_memories" nodeSets], Except.error e)
        | Except.ok _ =>
            match env.runCognify "gemini_memories" true with
            | Except.error e =>
                ([NetOp.addOp c "gemini_memories" nodeSets,
                  NetOp.cognifyOp "gemini_memories" true], Except.error e)
            | Except.ok _ =>
                ([NetOp.addOp c "gemini_memories" nodeSets,
                  NetOp.cognifyOp "gemini_memories" true],
                 Except.ok (Json.obj [
                   ("success", Json.bool true),
                   ("message", Json.str ("Memory added with tags ["
                      ++ joinSep ", " nodeSets ++ "]")),
                   ("preview", Json.str (jsSubstring0 100 c
                      ++ (if c.length > 100 then "..." else "")))]))
  | "list" =>
      match env.runList with
      | Except.error e => ([NetOp.listOp], Except.error e)
      | Except.ok ds =>
          match ds.mapM (fun d => do
              let i ← jsGet d "id"
              let n ← jsGet d "name"
              Except.ok (Json.obj (optField "id" i ++ optField "name" n))) with
          | Except.error e => ([NetOp.listOp], Except.error (CogneeErr.other e))
          | Except.ok mapped =>
              ([NetOp.listOp],
               Except.ok (Json.obj [
                 ("success", Json.bool true),
                 ("count", Json.num ds.length),
                 ("datasets", Json.arr mapped)]))
  | _ =>
      ([], Except.ok (failPayload ("Unknown action: " ++ action)))

/-- The gemini `cognee` tool handler: `args.action || 'help'` dispatch, the
switch body, and the catch turning any thrown error into the error
envelope.  Total by construction of the try/catch. -/
def geminiToolExecute (env : GeminiEnv) (args : ToolArgs) : List NetOp × Json :=
  let action := jsOrStr args.action "help"
  let r := geminiToolBody env args action
  (r.fst, match r.snd with
          | Except.ok payload => payload
          | Except.error e => geminiErrorEnvelope e)

end Cognee

namespace Cognee

/-- Oracles for the remote operations the opencode tool invokes
(`cogneeClient.searchMemories`, `.addMemory`, `.cognify()` with defaults,
`.listDatasets`). -/
structure OpencodeEnv where
  runSearch : String → String → Int → Option String → Except CogneeErr (List SearchResult)
  runAdd : String → String → List String → Except CogneeErr AddResponse
  runCognify : Except CogneeErr AddResponse
  runList : Except CogneeErr (List Json)

/-- The static usage guide of the opencode `help` action (README plugin
source lines 431-479). -/
def opencodeHelpPayload : Json :=
  Json.obj [
    ("success", Json.bool true),
    ("message", Json.str "Cognee Memory Usage Guide"),
    ("commands", Json.arr [
      Json.obj [
        ("command", Json.str "search"),
        ("description", Json.str "Search memories with configurable search type"),
        ("args", Json.arr [Json.str "query", Json.str "searchType (optional)", Json.str "topK (optional)"]),
        ("searchTypes", Json.obj [
          ("GRAPH_COMPLETION", Json.str "Default - Complex reasoning with graph context (slower, most intelligent)"),
          ("RAG_COMPLETION", Json.str "Fast fact retrieval without graph structure"),
          ("CHUNKS", Json.str "Raw text passages - fastest option"),
          ("SUMMARIES", Json.str "Pre-generated hierarchical summaries"),
          ("GRAPH_COMPLETION_COT", Json.str "Chain-of-thought for complex multi-step reasoning"),
          ("FEELING_LUCKY", Json.str "Auto-select best search type")])],
      Json.obj [
        ("command", Json.str "timeline"),
        ("description", Json.str ("Time-aware search (e.g., " ++ sq "what happened last week"
            ++ ", " ++ sq "before 2024" ++ ")")),
        ("args", Json.arr [Json.str "query"])],
      Json.obj [
        ("command", Json.str "add"),
        ("description", Json.str "Add new memory with optional NodeSet tags for organization"),
        ("args", Json.arr [Json.str "content", Json.str "tags (optional, comma-separated)"]),
        ("example", Json.str ("add content=" ++ sq "default_user prefers dark mode"
            ++ " tags=" ++ sq "preferences,ui"))],
      Json.obj [
        ("command", Json.str "list"),
        ("description", Json.str "List all datasets"),
        ("args", Json.arr [])]]),
    ("nodeSets", Json.obj [
      ("description", Json.str "NodeSets are tags that organize memories into searchable groups"),
      ("examples", Json.arr [Json.str "preferences", Json.str "tools", Json.str "decisions", Json.str "projects", Json.str "sessions"]),
      ("automatic", Json.arr [Json.str "sessions", Json.str "conversations", Json.str "user_memories"])]),
    ("searchTypeGuide", Json.obj [
      ("simpleFacts", Json.str "Use RAG_COMPLETION for quick fact lookups"),
      ("complexReasoning", Json.str "Use GRAPH_COMPLETION for questions requiring relationship understanding"),
      ("rawContent", Json.str "Use CHUNKS to verify content exists or get exact passages"),
      ("overviews", Json.str "Use SUMMARIES for quick document overviews"),
      ("multiStep", Json.str "Use GRAPH_COMPLETION_COT for differential diagnosis or complex analysis")])]

/-- The opencode catch block (README plugin source lines 610-623):
`{success: false, error: error.message}` (every error thrown by this code
is an `Error` carrying a message). -/
def opencodeErrorEnvelope (e : CogneeErr) : Json :=
  Json.obj [("success", Json.bool false), ("error", Json.str e.message)]

/-- The `switch (action)` body of the opencode tool's `execute` (README
plugin source lines 427-609); `ctxSession` is `context?.sessionID`. -/
def opencodeToolBody (env : OpencodeEnv) (args : ToolArgs) (ctxSession : Option String)
    (action : String) : List NetOp × Except CogneeErr Json :=
  match action with
  | "help" => ([], Except.ok opencodeHelpPayload)
  | "search" =>
      if jsFalsyStrOpt args.query then
        ([], Except.ok (failPayload "query parameter is required for search action"))
      else
        let q := args.query.getD ""
        let searchType := jsOrStr args.searchType "GRAPH_COMPLETION"
        let topK := jsOrInt args.topK 10
        match env.runSearch q searchType topK ctxSession with
        | Except.error e => ([NetOp.searchOp q searchType topK], Except.error e)
        | Except.ok results =>
            ([NetOp.searchOp q searchType topK],
             if results.length = 0 then
               Except.ok (Json.obj [
                 ("success", Json.bool true),
                 ("query", Json.str q),
                 ("searchType", Json.str searchType),
                 ("count", Json.num 0),
                 ("message", Json.str ("No memories found for: \"" ++ q ++ "\""))])
             else
               Except.ok (Json.obj [
                 ("success", Json.bool true),
                 ("query", Json.str q),
                 ("searchType", Json.str searchType),
                 ("count", Json.num results.length),
                 ("results", Json.arr (jsSlice0 topK (results.map (fun r =>
                    Json.obj [("content", r.content)]))))]))
  | "timeline" =>
      if jsFalsyStrOpt args.query then
        ([], Except.ok (failPayload "query parameter is required for timeline action"))
      else
        let q := args.query.getD ""
        match env.runSearch q "TEMPORAL" 15 ctxSession with
        | Except.error e => ([NetOp.searchOp q "TEMPORAL" 15], Except.error e)
        | Except.ok results =>
            ([NetOp.searchOp q "TEMPORAL" 15],
             if results.length = 0 then
               Except.ok (Json.obj [
                 ("success", Json.bool true),
                 ("query", Json.str q),
                 ("count", Json.num 0),
                 ("message", Json.str ("No temporal events found for: \"" ++ q ++ "\""))])
             else
               Except.ok (Json.obj [
                 ("success", Json.bool true),
                 ("query", Json.str q),
                 ("searchType", Json.str "TEMPORAL"),
                 ("count", Json.num results.length),
                 ("results", Json.arr (jsSlice0 15 (results.map (fun r =>
                    Json.obj (("content", r.content) :: optField "metadata" r.metadata)))))]))
  | "add" =>
      if jsFalsyStrOpt args.content then
        ([], Except.ok (failPayload "content parameter is required for add action"))
      else
        let c := args.content.getD ""
        let nodeSets := parseTags args.tags
        match env.runAdd c "default_user" nodeSets with
        | Except.error e => ([NetOp.addOp c "default_user" nodeSets], Except.error e)
        | Except.ok addResult =>
            if ¬ addResult.success then
              ([NetOp.addOp c "default_user" nodeSets],
               Except.ok (failPayload (jsOrStr addResult.message "Failed to add memory")))
            else
              match env.runCognify with
              | Except.error e =>
                  ([NetOp.addOp c "default_user" nodeSets,
                    NetOp.cognifyOp "default_user" true], Except.error e)
              | Except.ok _ =>
                  ([NetOp.addOp c "default_user" nodeSets,
                    NetOp.cognifyOp "default_user" true],
                   Except.ok (Json.obj [
                     ("success", Json.bool true),
                     ("message", Json.str ("Memory added with tags ["
                        ++ joinSep ", " nodeSets ++ "]: \""
                        ++ jsSubstring0 100 c
                        ++ (if c.length > 100 then "..." else "") ++ "\"")),
                     ("nodeSets", Json.arr (nodeSets.map Json.str))]))
  | "list" =>
      match env.runList with
      | Except.error e => ([NetOp.listOp], Except.error e)
      | Except.ok ds =>
          if ds.length = 0 then
            ([NetOp.listOp],
             Except.ok (Json.obj [
               ("success", Json.bool true),
               ("count", Json.num 0),
               ("message", Json.str "No datasets found in Cognee")]))
          else
            match ds.mapM (fun d => do
                let i ← jsGet d "id"
                let n ← jsGet d "name"
                Except.ok (Json.obj (optField "id" i ++ optField "name" n))) with
            | Except.error e => ([NetOp.listOp], Except.error (CogneeErr.other e))
            | Except.ok mapped =>
                ([NetOp.listOp],
                 Except.ok (Json.obj [
                   ("success", Json.bool true),
                   ("count", Json.num ds.length),
                   ("datasets", Json.arr mapped)]))
  | _ =>
      ([], Except.ok (failPayload ("Unknown action: " ++ action ++ ". Use "
        ++ sq "search" ++ ", " ++ sq "add" ++ ", " ++ sq "list" ++ ", or " ++ sq "help")))

/-- The opencode `cognee` tool handler: dispatch plus catch. -/
def opencodeToolExecute (env : OpencodeEnv) (args : ToolArgs) (ctxSession : Option String) :
    List NetOp × Json :=
  let action := jsOrStr args.action "help"
  let r := opencodeToolBody env args ctxSession action
  (r.fst, match r.snd with
          | Except.ok payload => payload
          | Except.error e => opencodeErrorEnvelope e)

/-! ## Config loader (src/unnamed/part_002, gemini config.js; the opencode
config.ts in the README has the same defaults-spread-user shape) -/

/-- The observable state of the config file: absent, unreadable
(`readFileSync` throws), unparsable (`JSON.parse` throws), or parsed to a
JSON value. -/
inductive ConfigFile where
  | absent
  | unreadable
  | unparsable
  | parsed (j : Json)

/-- `DEFAULT_CONFIG` of the gemini adapter (part_002 lines 31-42). -/
def DEFAULT_CONFIG : List (String × Json) :=
  [("cogneeUrl", Json.str "http://localhost:8000"),
   ("datasetName", Json.str "default_user"),
   ("similarityThreshold", Json.num (7 / 10)),
   ("maxMemories", Json.num 5),
   ("keywordPatterns", Json.arr [Json.str "remember", Json.str "note", Json.str "save this",
      Json.str "important", Json.str ("don" ++ String.singleton aposChar ++ "t forget"),
      Json.str "keep in mind"]),
   ("injection", Json.obj [
      ("searchType", Json.str "CHUNKS"),
      ("topK", Json.num 3),
      ("timeout", Json.num 2000)])]

/-- The enumerable own properties a value contributes under JS spread:
objects their fields, arrays and strings their indexed elements, primitives
nothing. -/
def jsonOwnFields : Json → List (String × Json)
  | Json.obj fs => fs
  | Json.arr items => (items.enum).map (fun p => (toString p.fst, p.snd))
  | Json.str s => (s.data.enum).map (fun p => (toString p.fst, Json.str (String.singleton p.snd)))
  | _ => []

/-- JS `{...a, ...b}`: keys of `a` in order with values overridden by `b`
where present, followed by keys of `b` not in `a`, in `b`'s order. -/
def spreadMerge (a b : List (String × Json)) : List (String × Json) :=
  (a.map (fun kv => (kv.fst, (lookupField b kv.fst).getD kv.snd)))
    ++ b.filter (fun kv => (lookupField a kv.fst).isNone)

/-- `loadConfig` (part_002 lines 48-59): a parsed file is spread over the
defaults; an absent file falls through, and a read or parse failure is
caught, both returning a copy of the defaults.  Total for every file
state. -/
def loadConfig (f : ConfigFile) : Json :=
  match f with
  | ConfigFile.parsed j => Json.obj (spreadMerge DEFAULT_CONFIG (jsonOwnFields j))
  | _ => Json.obj DEFAULT_CONFIG

end Cognee

namespace Cognee

/-! ## Derived notions used by the verification statements -/

/-- Field lookup on a JSON value (undefined off objects). -/
def jGetField (j : Json) (k : String) : Option Json :=
  match j with
  | Json.obj fs => lookupField fs k
  | _ => none

/-- A structured success/error envelope: an object whose `success` field is
`true`, or is `false` alongside a string-valued `error` field. -/
def isEnvelope (j : Json) : Bool :=
  match jGetField j "success" with
  | some (Json.bool true) => true
  | some (Json.bool false) =>
      match jGetField j "error" with
      | some (Json.str _) => true
      | _ => false
  | _ => false

/-- `isEnvelope` lifted over a possibly-thrown branch result. -/
def isEnvelopeExc : Except CogneeErr Json → Bool
  | Except.ok j => isEnvelope j
  | Except.error _ => true

/-- Whether an occurrence interval lies inside a span interval
(`(start, stop)` against `(start, length)`). -/
def insideSpan (occ : Nat × Nat) (span : Nat × Nat) : Bool :=
  decide (span.fst ≤ occ.fst ∧ occ.snd ≤ span.fst + span.snd)

/-- An oracle environment whose remote operations all succeed trivially. -/
def trivialGeminiEnv : GeminiEnv :=
  { runSearch := fun _ _ _ => Except.ok []
    runAdd := fun _ _ _ => Except.ok { success := true, message := none }
    runCognify := fun _ _ => Except.ok Json.null
    runList := Except.ok [] }

/-- An oracle environment whose remote operations all succeed trivially. -/
def trivialOpencodeEnv : OpencodeEnv :=
  { runSearch := fun _ _ _ _ => Except.ok []
    runAdd := fun _ _ _ => Except.ok { success := true, message := none }
    runCognify := Except.ok { success := true, message := none }
    runList := Except.ok [] }

/-- The two-message session used for claim C5: started one minute before
the 1970-01-02 UTC midnight. -/
def c5SessionState : SessionState :=
  { messages := [{ role := "user", content := "first msg", timestamp := 86340000 },
                 { role := "user", content := "second msg", timestamp := 86341000 }]
    startTime := 86340000 }

end Cognee

namespace Cognee

/-! ## Claim C1 — tool handler error envelopes -/

/-- Every payload the gemini switch body returns is a success/error envelope. -/
theorem geminiToolBody_envelope (env : GeminiEnv) (args : ToolArgs) (action : String) :
    isEnvelopeExc (geminiToolBody env args action).snd = true := by
  unfold geminiToolBody
  dsimp only []
  repeat' split
  all_goals rfl

/-- Every payload the opencode switch body returns is a success/error envelope. -/
theorem opencodeToolBody_envelope (env : OpencodeEnv) (args : ToolArgs) (ctx : Option String)
    (action : String) :
    isEnvelopeExc (opencodeToolBody env args ctx action).snd = true := by
  unfold opencodeToolBody
  dsimp only []
  repeat' split
  all_goals rfl

/-- The gemini catch envelope carries success false and the error message. -/
theorem geminiErrorEnvelope_fields (e : CogneeErr) :
    isEnvelope (geminiErrorEnvelope e) = true ∧
    jGetField (geminiErrorEnvelope e) "success" = some (Json.bool false) ∧
    jGetField (geminiErrorEnvelope e) "error" = some (Json.str e.message) := by
  refine ⟨rfl, rfl, rfl⟩

/-- The opencode catch envelope carries success false and the error message. -/
theorem opencodeErrorEnvelope_fields (e : CogneeErr) :
    isEnvelope (opencodeErrorEnvelope e) = true ∧
    jGetField (opencodeErrorEnvelope e) "success" = some (Json.bool false) ∧
    jGetField (opencodeErrorEnvelope e) "error" = some (Json.str e.message) := by
  refine ⟨rfl, rfl, rfl⟩

/-- C1: For every tool action (help, search, timeline, add, list, and unknown
actions) and every oracle behaviour of the remote operations — including a
raised `CogneeUnavailableError`, `CogneeAPIError`, or any other error — both
tool handlers return a structured payload that is a success/error envelope
(`success: true`, or `success: false` with a string `error` message built
from the thrown error), and being total functions they never propagate an
exception across the tool boundary. -/
theorem c1_tool_errors_enveloped :
    (∀ (env : GeminiEnv) (args : ToolArgs),
       isEnvelope (geminiToolExecute env args).snd = true) ∧
    (∀ (env : OpencodeEnv) (args : ToolArgs) (ctx : Option String),
       isEnvelope (opencodeToolExecute env args ctx).snd = true) ∧
    (∀ e : CogneeErr,
       jGetField (geminiErrorEnvelope e) "success" = some (Json.bool false) ∧
       jGetField (geminiErrorEnvelope e) "error" = some (Json.str e.message) ∧
       jGetField (opencodeErrorEnvelope e) "success" = some (Json.bool false) ∧
       jGetField (opencodeErrorEnvelope e) "error" = some (Json.str e.message)) := by
  refine ⟨?_, ?_, ?_⟩
  · intro env args
    have h := geminiToolBody_envelope env args (jsOrStr args.action "help")
    rcases hsnd : (geminiToolBody env args (jsOrStr args.action "help")).snd with e | p
    · simp [geminiToolExecute, hsnd, (geminiErrorEnvelope_fields e).1]
    · rw [hsnd] at h
      simpa [geminiToolExecute, hsnd, isEnvelopeExc] using h
  · intro env args ctx
    have h := opencodeToolBody_envelope env args ctx (jsOrStr args.action "help")
    rcases hsnd : (opencodeToolBody env args ctx (jsOrStr args.action "help")).snd with e | p
    · simp [opencodeToolExecute, hsnd, (opencodeErrorEnvelope_fields e).1]
    · rw [hsnd] at h
      simpa [opencodeToolExecute, hsnd, isEnvelopeExc] using h
  · intro e
    exact ⟨(geminiErrorEnvelope_fields e).2.1, (geminiErrorEnvelope_fields e).2.2,
           (opencodeErrorEnvelope_fields e).2.1, (opencodeErrorEnvelope_fields e).2.2⟩

/-! ## Claim C2 — search response normalization -/

/-- C2: the failing input for the gemini normalizer.  On the response
`obj [results: arr [str a]]` the gemini `searchMemories` does not normalize
the `results` array locally: it issues a second POST whose `query` is the
array itself (with default search type and top-k), and returns whatever the
second response normalizes to — here the follow-up response `arr []` yields
`ok []`, losing the record "a".  The opencode client's
`extractSearchResults`, by contrast, normalizes the same payload to
`[{content: "a"}]`, which is what the spec describes. -/
theorem c2_results_recursion_failing_input :
    geminiSearchMemories (Json.str "q") "CHUNKS" 5
        [Json.obj [("results", Json.arr [Json.str "a"])], Json.arr []] =
      ([{ query := Json.str "q", search_type := "CHUNKS", top_k := 5, timeoutMs := none },
        { query := Json.arr [Json.str "a"], search_type := "GRAPH_COMPLETION",
          top_k := 10, timeoutMs := none }],
       Except.ok []) ∧
    extractSearchResults (Json.obj [("results", Json.arr [Json.str "a"])]) =
      Except.ok [{ content := Json.str "a", metadata := none }] := by
  exact ⟨rfl, rfl⟩

/-! ## Claim C3 — client-side search timeout -/

/-- C3 counterexample: the gemini MCP server's `searchMemories` issues its
POST through `cogneeRequest` with no `AbortSignal`, so the one request of
this concrete call carries no client-enforced timeout — refuting, for that
implementation, that `searchMemories` enforces a client-side timeout on the
POST. -/
theorem c3_gemini_search_unbounded :
    ((geminiSearchMemories (Json.str "q") "GRAPH_COMPLETION" 10 [Json.arr []]).fst.map
        (fun r => r.timeoutMs)) = [none] := rfl

/-- C3 (amended): the opencode client's `searchMemories` attaches its
`timeoutMs` to the POST via `AbortController`, and an elapsed timeout
(`AbortError`) raises `CogneeUnavailableError` — the same error class as
unreachability, not a generic timeout error; the gemini server's
`searchMemories` has no such timeout. -/
theorem c3_client_timeout_unavailable (q st : String) (k : Int) (sid : Option String)
    (t : Nat) (outcome : FetchOutcome) :
    (clientSearchMemories q st k sid t outcome).fst.timeoutMs = some t ∧
    (outcome = FetchOutcome.aborted →
      (clientSearchMemories q st k sid t outcome).snd =
        Except.error (CogneeErr.unavailable "Cognee search timed out")) ∧
    (∀ name, outcome = FetchOutcome.netError name →
      (clientSearchMemories q st k sid t outcome).snd =
        Except.error (CogneeErr.unavailable "Cannot connect to Cognee server")) := by
  refine ⟨?_, ?_, ?_⟩ <;> cases outcome <;> simp [clientSearchMemories]
  split
  · split <;> rfl
  · rfl

/-- C3 witness: the amended theorem at a concrete timed-out call. -/
theorem c3_client_timeout_unavailable_witness :
    (clientSearchMemories "q" "CHUNKS" 5 none 3000 FetchOutcome.aborted).snd =
      Except.error (CogneeErr.unavailable "Cognee search timed out") ∧
    (clientSearchMemories "q" "CHUNKS" 5 none 3000 FetchOutcome.aborted).fst.timeoutMs = some 3000 :=
  ⟨(c3_client_timeout_unavailable "q" "CHUNKS" 5 none 3000 FetchOutcome.aborted).2.1 rfl,
   (c3_client_timeout_unavailable "q" "CHUNKS" 5 none 3000 FetchOutcome.aborted).1⟩

end Cognee

namespace Cognee

/-! ## Claim C4 — keyword trigger and code spans -/

/-- C4 counterexample: in the text `re`remember`member` (the middle word in
backticks) the only whole-word keyword occurrence, at indices 3 to 11, lies
inside the only inline code span, at indices 2 to 12, and there is no fenced
span — yet the trigger fires, because removing the span concatenates `re`
and `member` into `remember`.  This refutes the universal direction "keyword
only inside code spans implies no fire". -/
theorem c4_span_glue_fires :
    fencedSpans spanGlueText = [] ∧
    inlineSpans spanGlueText = [(2, 10)] ∧
    keywordOccurrences spanGlueText = [(3, 11)] ∧
    ((keywordOccurrences spanGlueText).all (fun occ =>
       (inlineSpans spanGlueText).any (fun sp => insideSpan occ sp))) = true ∧
    detectMemoryKeyword spanGlueText = true := by
  refine ⟨by decide, by decide, by decide, by decide, by decide⟩

/-- The fenced-code regex cannot match where no backtick occurs. -/
theorem fencedMatchLen_none_of_no_bt (l : List Char) (h : ∀ c ∈ l, c ≠ btChar) :
    fencedMatchLen l = none := by
  cases l with
  | nil => rfl
  | cons c1 t1 =>
    cases t1 with
    | nil => rfl
    | cons c2 t2 =>
      cases t2 with
      | nil => rfl
      | cons c3 rest =>
        have h1 : c1 ≠ btChar := h c1 (by simp)
        simp [fencedMatchLen, h1]

/-- The inline-code regex cannot match where no backtick occurs. -/
theorem inlineMatchLen_none_of_no_bt (l : List Char) (h : ∀ c ∈ l, c ≠ btChar) :
    inlineMatchLen l = none := by
  cases l with
  | nil => rfl
  | cons c rest =>
    have h1 : c ≠ btChar := h c (by simp)
    simp [inlineMatchLen, h1]

/-- A stripping pass is the identity on matcher-free text. -/
theorem stripAux_eq_of_no_bt (m : List Char → Option Nat)
    (hm : ∀ l : List Char, (∀ c ∈ l, c ≠ btChar) → m l = none) :
    ∀ (fuel : Nat) (l : List Char), (∀ c ∈ l, c ≠ btChar) → stripAux m fuel l = l := by
  intro fuel
  induction fuel with
  | zero => intro l _; cases l <;> rfl
  | succ f ih =>
    intro l h
    cases l with
    | nil => rfl
    | cons c rest =>
      have hrest : ∀ d ∈ rest, d ≠ btChar := fun d hd => h d (by simp [hd])
      simp [stripAux, hm (c :: rest) h, ih rest hrest]

/-- Code-span removal is the identity on backtick-free text. -/
theorem removeCodeBlocks_eq_of_no_bt (l : List Char) (h : ∀ c ∈ l, c ≠ btChar) :
    removeCodeBlocks l = l := by
  unfold removeCodeBlocks
  rw [stripAux_eq_of_no_bt fencedMatchLen fencedMatchLen_none_of_no_bt l.length l h]
  exact stripAux_eq_of_no_bt inlineMatchLen inlineMatchLen_none_of_no_bt l.length l h

/-- C4 (amended): the trigger fires exactly when a configured keyword
matches whole-word, case-insensitively, in the text with fenced and inline
code spans textually removed.  On backtick-free inputs this coincides with
matching the raw text; the spec's test vectors hold: `remember` alone inside
backticks does not fire, while "please remember this" fires.  The universal
only-inside-spans / outside-spans correspondence fails when removing a span
concatenates the surrounding text (see the counterexample). -/
theorem c4_trigger_amended (s : String)
    (h : s.data.all (fun c => decide (c ≠ btChar)) = true) :
    detectMemoryKeyword s = keywordTest s.data ∧
    detectMemoryKeyword (String.singleton btChar ++ "remember" ++ String.singleton btChar) = false ∧
    detectMemoryKeyword "please remember this" = true := by
  refine ⟨?_, by decide, by decide⟩
  unfold detectMemoryKeyword
  rw [removeCodeBlocks_eq_of_no_bt]
  intro c hc
  simpa using List.all_eq_true.mp h c hc

/-- C4 witness: the amended theorem at the spec's own positive vector. -/
theorem c4_trigger_amended_witness :
    ("please remember this".data.all (fun c => decide (c ≠ btChar)) = true) ∧
    (detectMemoryKeyword "please remember this" = keywordTest "please remember this".data ∧
     detectMemoryKeyword (String.singleton btChar ++ "remember" ++ String.singleton btChar) = false ∧
     detectMemoryKeyword "please remember this" = true) :=
  ⟨by decide, c4_trigger_amended "please remember this" (by decide)⟩

end Cognee

namespace Cognee

/-! ## Claim C5 — session flush upload -/

/-- C5 counterexample: for a session started at 23:59 UTC on 1970-01-01 and
flushed at 00:01 UTC on 1970-01-02, the uploaded document's third NodeSet
tag is `session_1970_01_01`, derived from `state.startTime` — it does not
match the flush date 1970-01-02 as the claim states. -/
theorem c5_tag_from_start_date :
    (flushSessionCalls "sess1" c5SessionState 86460000
        (Except.ok { success := true, message := none })).head? =
      some (NetOp.addOp (sessionDocument "sess1" c5SessionState 86460000) "default_user"
        ["sessions", "conversations", "session_1970_01_01"]) ∧
    isoDate 86460000 = "1970-01-02" ∧
    ¬ ("session_1970_01_01" = "session_" ++ underscoreDate (isoDate 86460000)) := by
  refine ⟨rfl, by decide, by decide⟩

/-- C5 (amended): flushing a session holding two messages on idle issues
exactly one upload — a document containing both message contents in their
original order, tagged `sessions`, `conversations`, and a date tag derived
from the session's start time (equal to the flush date whenever the session
does not cross a UTC day boundary) — followed by exactly one cognify request
with temporal mode set, and the session's state is deleted. -/
theorem c5_flush_amended (sid : String) (m1 m2 : Msg) (t0 now : Nat)
    (addO : String → Except CogneeErr AddResponse) (res : AddResponse)
    (hres : res.success = true) (h : addO sid = Except.ok res) :
    (handleEventOC { conversations := [(sid, { messages := [m1, m2], startTime := t0 })],
                     injectedSessions := [sid] } "session.idle" now addO).snd =
      [NetOp.addOp (sessionDocument sid { messages := [m1, m2], startTime := t0 } now)
         "default_user" ["sessions", "conversations", "session_" ++ underscoreDate (isoDate t0)],
       NetOp.cognifyOp "default_user" true] ∧
    (∃ pre mid, sessionDocument sid { messages := [m1, m2], startTime := t0 } now =
       pre ++ m1.content ++ mid ++ m2.content) ∧
    (handleEventOC { conversations := [(sid, { messages := [m1, m2], startTime := t0 })],
                     injectedSessions := [sid] } "session.idle" now addO).fst =
      { conversations := [], injectedSessions := [] } := by
  refine ⟨?_, ?_, ?_⟩
  · simp [handleEventOC, flushSessionCalls, h, hres, sessionNodeSets]
  · refine ⟨"Session Record (" ++ isoDate t0 ++ "):\n" ++ "Date: " ++ isoDate t0 ++ "\n"
      ++ "Time: " ++ isoDateTime t0 ++ "\n" ++ "Session ID: " ++ sid ++ "\n"
      ++ "Duration: " ++ toString ((now - t0 + 30000) / 60000) ++ " minutes\n"
      ++ "Message Count: " ++ toString (([m1, m2] : List Msg).length) ++ "\n\n"
      ++ "Events and Conversation:\n"
      ++ "[" ++ isoDateTime m1.timestamp ++ "] " ++ jsToUpper m1.role ++ ": ",
      "\n\n" ++ "[" ++ isoDateTime m2.timestamp ++ "] " ++ jsToUpper m2.role ++ ": ", ?_⟩
    dsimp only [sessionDocument]
    simp only [joinSep, List.map, String.append_assoc]
  · simp [handleEventOC]

/-- C5 witness: the amended theorem at the 1970-01-01 23:59 session, showing
the document holding both messages in order. -/
theorem c5_flush_amended_witness :
    ∃ pre mid, sessionDocument "sess1"
        { messages := [{ role := "user", content := "first msg", timestamp := 86340000 },
                       { role := "user", content := "second msg", timestamp := 86341000 }],
          startTime := 86340000 } 86460000 =
      pre ++ "first msg" ++ mid ++ "second msg" :=
  (c5_flush_amended "sess1"
    { role := "user", content := "first msg", timestamp := 86340000 }
    { role := "user", content := "second msg", timestamp := 86341000 }
    86340000 86460000 (fun _ => Except.ok { success := true, message := none })
    { success := true, message := none } rfl rfl).2.1

end Cognee

namespace Cognee

/-! ## Claim C6 — per-session state machine -/

/-- C6 counterexample: after a first message and an idle flush the session
map is empty, but a further message under the same identifier `s` recreates
a SessionState — the identifier transitions back to active after deletion,
refuting "once flushed, never revived under the same identifier". -/
theorem c6_revival_same_id :
    (runEvents initialPluginState
      [PEvent.chatMsg "s" "hello" 1, PEvent.lifecycle "session.idle" 2]).conversations = [] ∧
    getSession (runEvents initialPluginState
      [PEvent.chatMsg "s" "hello" 1, PEvent.lifecycle "session.idle" 2,
       PEvent.chatMsg "s" "again" 3]).conversations "s" =
      some { messages := [{ role := "user", content := "again", timestamp := 3 }], startTime := 3 } := by
  refine ⟨by decide, by decide⟩

/-- `getSession` misses exactly when no entry carries the key. -/
theorem getSession_eq_none_iff (l : List (String × SessionState)) (sid : String) :
    getSession l sid = none ↔ ∀ p ∈ l, p.fst ≠ sid := by
  induction l with
  | nil => simp [getSession]
  | cons hd tl ih =>
    obtain ⟨k, v⟩ := hd
    by_cases hk : k = sid
    · subst hk
      simp [getSession]
    · simp [getSession, hk, ih]

/-- `set` makes the key retrievable with the stored state. -/
theorem getSession_setSession_self (l : List (String × SessionState)) (sid : String)
    (s : SessionState) : getSession (setSession l sid s) sid = some s := by
  induction l with
  | nil => simp [setSession, getSession]
  | cons hd tl ih =>
    obtain ⟨k, v⟩ := hd
    by_cases hk : k = sid
    · simp [setSession, getSession, hk]
    · simp [setSession, getSession, hk, ih]

/-- The keys after `set`: unchanged when present, appended when fresh. -/
theorem keys_setSession (l : List (String × SessionState)) (sid : String) (s : SessionState) :
    (setSession l sid s).map Prod.fst =
      if sid ∈ l.map Prod.fst then l.map Prod.fst else l.map Prod.fst ++ [sid] := by
  induction l with
  | nil => simp [setSession]
  | cons hd tl ih =>
    obtain ⟨k, v⟩ := hd
    by_cases hk : k = sid
    · subst hk
      simp [setSession]
    · have hne : ¬ sid = k := fun hh => hk hh.symm
      simp only [setSession, if_neg hk, List.map_cons, List.mem_cons, hne, false_or, ih]
      by_cases hmem : sid ∈ tl.map Prod.fst <;> simp [hmem]

/-- `set` preserves key uniqueness. -/
theorem nodup_keys_setSession (l : List (String × SessionState)) (sid : String)
    (s : SessionState) (hnd : (l.map Prod.fst).Nodup) :
    ((setSession l sid s).map Prod.fst).Nodup := by
  rw [keys_setSession]
  by_cases hmem : sid ∈ l.map Prod.fst
  · simpa [hmem] using hnd
  · simp [hmem, List.nodup_append, hnd]

/-- Key uniqueness makes the association list functional. -/
theorem eq_of_nodup_keys (l : List (String × SessionState))
    (hnd : (l.map Prod.fst).Nodup) (k : String) (a : SessionState)
    (ha : (k, a) ∈ l) (p : String × SessionState) (hp : p ∈ l) (hk : p.fst = k) :
    p = (k, a) := by
  induction l with
  | nil => cases ha
  | cons hd tl ih =>
    simp only [List.map_cons, List.nodup_cons] at hnd
    rcases List.mem_cons.mp ha with h1 | h1
    · rcases List.mem_cons.mp hp with h2 | h2
      · rw [h2, ← h1]
      · exfalso
        apply hnd.1
        have hh : hd.fst = k := by rw [← h1]
        rw [hh]
        exact List.mem_map.mpr ⟨p, h2, hk⟩
    · rcases List.mem_cons.mp hp with h2 | h2
      · exfalso
        apply hnd.1
        have hh : hd.fst = k := by rw [← h2]; exact hk
        rw [hh]
        exact List.mem_map.mpr ⟨(k, a), h1, rfl⟩
      · exact ih hnd.2 h1 h2

/-- C6 (amended): every plugin step preserves "at most one SessionState per
identifier"; a first nonempty message takes an absent identifier to active
with a fresh one-message state; an idle/end event deletes the state of every
session with a nonempty transcript.  Deletion leaves no tombstone: as the
counterexample shows, a later message under the same identifier starts a
fresh SessionState rather than the identifier staying retired — only the
flushed state itself is never revived. -/
theorem c6_session_invariants (st : PluginState) (e : PEvent)
    (hnd : (st.conversations.map Prod.fst).Nodup) :
    ((stepState st e).conversations.map Prod.fst).Nodup ∧
    (∀ sid text now, e = PEvent.chatMsg sid text now →
       getSession st.conversations sid = none → ¬ jsTrim text = "" →
       getSession (stepState st e).conversations sid =
         some { messages := [{ role := "user", content := text, timestamp := now }],
                startTime := now }) ∧
    (∀ eventType now, e = PEvent.lifecycle eventType now →
       (eventType = "session.idle" ∨ eventType = "session.end") →
       ∀ sid s, (sid, s) ∈ st.conversations → s.messages ≠ [] →
         getSession (stepState st e).conversations sid = none) := by
  refine ⟨?_, ?_, ?_⟩
  · cases e with
    | chatMsg sid text now =>
      by_cases ht : jsTrim text = ""
      · simpa [stepState, stepChatMessage, ht] using hnd
      · simpa [stepState, stepChatMessage, ht] using
          nodup_keys_setSession st.conversations sid _ hnd
    | lifecycle eventType now =>
      by_cases hev : eventType = "session.idle" ∨ eventType = "session.end"
      · have hsub : List.Sublist
            ((st.conversations.filter (fun p => ¬ p.snd.messages.length > 0)).map Prod.fst)
            (st.conversations.map Prod.fst) :=
          List.Sublist.map Prod.fst (List.filter_sublist st.conversations)
        simpa [stepState, handleEventOC, hev] using hnd.sublist hsub
      · simpa [stepState, handleEventOC, hev] using hnd
  · intro sid text now he habs ht
    subst he
    simp [stepState, stepChatMessage, ht, habs, getSession_setSession_self]
  · intro eventType now he hev sid s hmem hne
    subst he
    have hlen : s.messages.length > 0 := List.length_pos.mpr hne
    simp only [stepState]
    unfold handleEventOC
    rw [if_pos hev]
    dsimp only
    rw [getSession_eq_none_iff]
    intro p hp hfst
    have hpl := List.mem_of_mem_filter hp
    have hcond := List.of_mem_filter hp
    have hps : p = (sid, s) := eq_of_nodup_keys st.conversations hnd sid s hmem p hpl hfst
    rw [hps] at hcond
    simp only [decide_eq_true_eq, not_lt, Nat.le_zero] at hcond
    omega

/-- C6 witness: a first message under a fresh identifier creates its state. -/
theorem c6_session_invariants_witness :
    getSession (stepState initialPluginState (PEvent.chatMsg "s" "x" 1)).conversations "s" =
      some { messages := [{ role := "user", content := "x", timestamp := 1 }], startTime := 1 } :=
  (c6_session_invariants initialPluginState (PEvent.chatMsg "s" "x" 1)
      (by simp [initialPluginState])).2.1 "s" "x" 1 rfl (by decide) (by decide)

end Cognee

namespace Cognee

/-! ## Claim C7 — health check -/

/-- C7 counterexample: the GET both `healthCheck` implementations issue to
`/health` is a bare `fetch` with no `AbortSignal`, so it carries no
client-enforced time bound — refuting the "bounded-time GET" part. -/
theorem c7_health_no_timeout :
    healthRequest.timeoutMs = none ∧ healthRequest.path = "/health" := ⟨rfl, rfl⟩

/-- C7 (amended): `healthCheck` issues a GET to the fixed `/health` path
with no client-enforced timeout; it returns `response.ok` (2xx) on any
response, returns false on any network error, and — being a total Boolean
function wrapped in try/catch — never raises. -/
theorem c7_health_amended :
    healthRequest.path = "/health" ∧ healthRequest.method = "GET" ∧
    healthRequest.timeoutMs = none ∧
    (∀ (status : Int) (body : Json),
       healthCheck (FetchOutcome.success status body) = statusOk status) ∧
    (∀ name, healthCheck (FetchOutcome.netError name) = false) ∧
    healthCheck FetchOutcome.aborted = false := by
  refine ⟨rfl, rfl, rfl, fun _ _ => rfl, fun _ => rfl, rfl⟩

/-! ## Claim C8 — parameter validation before network activity -/

/-- C8: in both tool handlers, `search` and `timeline` invoked with a
missing (or empty, JS-falsy) `query`, and `add` invoked with missing or
empty `content`, return the structured `{success: false, error: ...}`
payload having issued no remote operation at all. -/
theorem c8_guards_before_network :
    (∀ (env : GeminiEnv) (args : ToolArgs),
       args.action = some "search" → jsFalsyStrOpt args.query = true →
       geminiToolExecute env args = ([], failPayload "query parameter required for search")) ∧
    (∀ (env : GeminiEnv) (args : ToolArgs),
       args.action = some "timeline" → jsFalsyStrOpt args.query = true →
       geminiToolExecute env args = ([], failPayload "query parameter required for timeline")) ∧
    (∀ (env : GeminiEnv) (args : ToolArgs),
       args.action = some "add" → jsFalsyStrOpt args.content = true →
       geminiToolExecute env args = ([], failPayload "content parameter required for add")) ∧
    (∀ (env : OpencodeEnv) (args : ToolArgs) (ctx : Option String),
       args.action = some "search" → jsFalsyStrOpt args.query = true →
       opencodeToolExecute env args ctx =
         ([], failPayload "query parameter is required for search action")) ∧
    (∀ (env : OpencodeEnv) (args : ToolArgs) (ctx : Option String),
       args.action = some "timeline" → jsFalsyStrOpt args.query = true →
       opencodeToolExecute env args ctx =
         ([], failPayload "query parameter is required for timeline action")) ∧
    (∀ (env : OpencodeEnv) (args : ToolArgs) (ctx : Option String),
       args.action = some "add" → jsFalsyStrOpt args.content = true →
       opencodeToolExecute env args ctx =
         ([], failPayload "content parameter is required for add action")) := by
  refine ⟨?_, ?_, ?_, ?_, ?_, ?_⟩
  · intro env args ha hq
    simp [geminiToolExecute, geminiToolBody, jsOrStr, ha, hq]
  · intro env args ha hq
    simp [geminiToolExecute, geminiToolBody, jsOrStr, ha, hq]
  · intro env args ha hc
    simp [geminiToolExecute, geminiToolBody, jsOrStr, ha, hc]
  · intro env args ctx ha hq
    simp [opencodeToolExecute, opencodeToolBody, jsOrStr, ha, hq]
  · intro env args ctx ha hq
    simp [opencodeToolExecute, opencodeToolBody, jsOrStr, ha, hq]
  · intro env args ctx ha hc
    simp [opencodeToolExecute, opencodeToolBody, jsOrStr, ha, hc]

/-- C8 witness: a query-less gemini search and an empty-content opencode add
both fail structurally with no remote operation issued. -/
theorem c8_guards_before_network_witness :
    geminiToolExecute trivialGeminiEnv
      { action := some "search", query := none, content := none, tags := none,
        searchType := none, topK := none } =
      ([], failPayload "query parameter required for search") ∧
    opencodeToolExecute trivialOpencodeEnv
      { action := some "add", query := none, content := some "", tags := none,
        searchType := none, topK := none } none =
      ([], failPayload "content parameter is required for add action") :=
  ⟨c8_guards_before_network.1 trivialGeminiEnv _ rfl rfl,
   c8_guards_before_network.2.2.2.2.2 trivialOpencodeEnv _ none rfl (by decide)⟩

/-! ## Claim C9 — tags parsing -/

/-- C9: the add action parses the tags string "a, b ,,c" into exactly
["a", "b", "c"] (split on commas, trimmed, empty entries dropped) and
defaults to exactly ["user_memories"] when tags is absent — shown on the
shared parser and on each handler's issued add operation. -/
theorem c9_tags_parsing :
    parseTags (some "a, b ,,c") = ["a", "b", "c"] ∧
    parseTags none = ["user_memories"] ∧
    (geminiToolExecute trivialGeminiEnv
      { action := some "add", query := none, content := some "x",
        tags := some "a, b ,,c", searchType := none, topK := none }).fst =
      [NetOp.addOp "x" "gemini_memories" ["a", "b", "c"],
       NetOp.cognifyOp "gemini_memories" true] ∧
    (opencodeToolExecute trivialOpencodeEnv
      { action := some "add", query := none, content := some "x",
        tags := none, searchType := none, topK := none } none).fst =
      [NetOp.addOp "x" "default_user" ["user_memories"],
       NetOp.cognifyOp "default_user" true] := by
  refine ⟨by decide, rfl, by decide, by decide⟩

/-! ## Claim C10 — config loading -/

/-- C10: `loadConfig` is total over every config-file state, returning the
documented defaults when the file is absent, unreadable or unparsable, and
otherwise the defaults shallowly overridden by the file's top-level keys —
in particular a user file holding only `injection.topK` replaces the entire
default `injection` object, dropping its `searchType` and `timeout`
defaults, while a top-level override keeps all other defaults and unknown
keys are appended. -/
theorem c10_loadConfig_defaults_and_shallow_merge :
    loadConfig ConfigFile.absent = Json.obj DEFAULT_CONFIG ∧
    loadConfig ConfigFile.unreadable = Json.obj DEFAULT_CONFIG ∧
    loadConfig ConfigFile.unparsable = Json.obj DEFAULT_CONFIG ∧
    loadConfig (ConfigFile.parsed (Json.obj [("injection", Json.obj [("topK", Json.num 7)])])) =
      Json.obj
        [("cogneeUrl", Json.str "http://localhost:8000"),
         ("datasetName", Json.str "default_user"),
         ("similarityThreshold", Json.num (7 / 10)),
         ("maxMemories", Json.num 5),
         ("keywordPatterns", Json.arr [Json.str "remember", Json.str "note", Json.str "save this",
            Json.str "important", Json.str ("don" ++ String.singleton aposChar ++ "t forget"),
            Json.str "keep in mind"]),
         ("injection", Json.obj [("topK", Json.num 7)])] ∧
    loadConfig (ConfigFile.parsed (Json.obj [("maxMemories", Json.num 9), ("extra", Json.bool true)])) =
      Json.obj
        [("cogneeUrl", Json.str "http://localhost:8000"),
         ("datasetName", Json.str "default_user"),
         ("similarityThreshold", Json.num (7 / 10)),
         ("maxMemories", Json.num 9),
         ("keywordPatterns", Json.arr [Json.str "remember", Json.str "note", Json.str "save this",
            Json.str "important", Json.str ("don" ++ String.singleton aposChar ++ "t forget"),
            Json.str "keep in mind"]),
         ("injection", Json.obj [
            ("searchType", Json.str "CHUNKS"),
            ("topK", Json.num 3),
            ("timeout", Json.num 2000)]),
         ("extra", Json.bool true)] := by
  refine ⟨rfl, rfl, rfl, ?_, ?_⟩ <;> rfl

end Cognee
